import Mathlib

/-!
Verification of the arithmetic core of `src/davidapp.py` (retirement planner).

The Python code computes with floats; the embedding idealises float arithmetic
as exact rational arithmetic over `ℚ`.  Python raises `ZeroDivisionError` on
division by zero, so every code path that divides by a value that can be zero
is embedded as an `Option`-returning function (`none` = the exception).
Divisions by the literal constants 12 and 100 can never raise and stay total.
-/

/-- Embedding of `sip_simulation` (src/davidapp.py lines 7-14).
The Python loop `for i in range(1, months + 1)` accumulates
`monthly_investment * (1 + monthly_rate) ** (months - i + 1)`; the fold below
runs `i` over `List.range months` (i.e. `0 .. months-1`), so the Python loop
index is `i + 1` and the exponent is `months - (i + 1) + 1`. -/
def sip_simulation (monthly_investment annual_return_rate : ℚ) (years : ℕ) :
    ℚ × ℚ :=
  let total_invested := monthly_investment * 12 * (years : ℚ)
  let monthly_rate := annual_return_rate / 12 / 100
  let months := years * 12
  let future_value :=
    (List.range months).foldl
      (fun future_value i =>
        future_value + monthly_investment * (1 + monthly_rate) ^ (months - (i + 1) + 1))
      0
  (total_invested, future_value)

/-- Embedding of `tax_benefits` (src/davidapp.py lines 17-21). -/
def tax_benefits (investment_amount : ℚ) : ℚ × ℚ :=
  let sec_80c_limit : ℚ := 150000
  let eligible := min investment_amount sec_80c_limit
  let tax_saved := eligible * (0.3 : ℚ)
  (eligible, tax_saved)

/-- Embedding of `post_retirement_income_models` (src/davidapp.py lines 24-27).
`years_swp = total_corpus / (swp_amount * 12)` raises `ZeroDivisionError`
when `swp_amount * 12 = 0`, hence the `Option` result. -/
def post_retirement_income_models (total_corpus annuity_rate swp_amount : ℚ) :
    Option (ℚ × ℚ) :=
  let annual_annuity := total_corpus * annuity_rate / 100
  if swp_amount * 12 = 0 then none
  else some (annual_annuity, total_corpus / (swp_amount * 12))

/-- Embedding of `months = (retirement_age - age) * 12`
(src/davidapp.py line 42); both ages are Python ints, so `ℤ`. -/
def months (age retirement_age : ℤ) : ℤ := (retirement_age - age) * 12

/-- The closed-form future-value expression
`monthly_investment * (((1 + rate/100/12) ** n - 1) / (rate/100/12))`
shared by src/davidapp.py lines 44-45 (with `n = months`) and lines 55-56
(with `n = i*12`). -/
def future_value_formula (monthly_investment ratePercent : ℚ) (nMonths : ℕ) : ℚ :=
  monthly_investment *
    (((1 + ratePercent / 100 / 12) ^ nMonths - 1) / (ratePercent / 100 / 12))

/-- Embedding of `future_value_equity` / `future_value_traditional`
(src/davidapp.py lines 44-45): the expression divides by the monthly rate
`ratePercent/100/12`, which raises `ZeroDivisionError` when that rate is zero
(there is no special case in the code), hence the `Option` result. -/
def future_value_equity (monthly_investment ratePercent : ℚ) (nMonths : ℕ) :
    Option ℚ :=
  if ratePercent / 100 / 12 = 0 then none
  else some (future_value_formula monthly_investment ratePercent nMonths)

/-- Embedding of the year-by-year growth list comprehensions
(src/davidapp.py lines 54-56): `years = list(range(age, retirement_age + 1))`
has `max 0 (retirement_age + 1 - age)` elements, and the comprehension maps
`i` over `range(len(years))`, evaluating the closed form at `i*12` months. -/
def growth_series (monthly_investment ratePercent : ℚ) (age retirement_age : ℤ) :
    List ℚ :=
  (List.range (retirement_age + 1 - age).toNat).map
    (fun i => future_value_formula monthly_investment ratePercent (i * 12))

/-- One row of the static comparison table (src/davidapp.py lines 64-70). -/
structure ComparisonRow where
  option : String
  expectedReturn : ℚ
  riskLevel : String
  liquidity : String
deriving DecidableEq

/-- Embedding of `df_comparison` (src/davidapp.py lines 64-70): the column
dict is transposed into one record per row. -/
def df_comparison : List ComparisonRow :=
  [ ⟨"Equity Mutual Fund", 12, "High", "High (after 1 year)"⟩,
    ⟨"Public Provident Fund (PPF)", 7.1, "Low", "Low"⟩,
    ⟨"Employees Provident Fund (EPF)", 8.1, "Low", "Low"⟩,
    ⟨"National Pension Scheme (NPS)", 9, "Moderate", "Moderate"⟩ ]

/-- Claim C3: for positive corpus, annuity rate and monthly withdrawal,
`post_retirement_income_models` returns the annuity `corpus * rate / 100`
and the horizon `corpus / (withdrawal * 12)`; at withdrawal 0 it fails with
division by zero; and the scenario corpus = 1000000, rate = 6,
withdrawal = 10000 yields annuity 60000 and horizon 25/3 (≈ 8.33 years). -/
theorem post_retirement_income_models_spec
    (corpus annuity_rate swp : ℚ)
    (hc : 0 < corpus) (ha : 0 < annuity_rate) (hs : 0 < swp) :
    post_retirement_income_models corpus annuity_rate swp
      = some (corpus * annuity_rate / 100, corpus / (swp * 12))
    ∧ post_retirement_income_models corpus annuity_rate 0 = none
    ∧ post_retirement_income_models 1000000 6 10000 = some (60000, 25 / 3) := by
  refine ⟨?_, ?_, ?_⟩
  · have h12 : swp * 12 ≠ 0 := by positivity
    simp [post_retirement_income_models, h12]
  · simp [post_retirement_income_models]
  · norm_num [post_retirement_income_models]

/-- Witness for C3 at corpus = 1000000, rate = 6, withdrawal = 10000. -/
theorem post_retirement_income_models_spec_witness :
    post_retirement_income_models 1000000 6 10000
      = some (1000000 * 6 / 100, 1000000 / (10000 * 12))
    ∧ post_retirement_income_models 1000000 6 0 = none
    ∧ post_retirement_income_models 1000000 6 10000 = some (60000, 25 / 3) :=
  post_retirement_income_models_spec 1000000 6 10000
    (by norm_num) (by norm_num) (by norm_num)

/-- Claim C4: for every annualInvestment ≥ 0, `tax_benefits` returns
`eligible = min investment 150000` and `tax_saved = 0.30 * eligible`, so the
eligible amount never exceeds 150000; and investment 200000 yields
eligible 150000 with tax saved 45000. -/
theorem tax_benefits_spec (investment : ℚ) (h : 0 ≤ investment) :
    tax_benefits investment
      = (min investment 150000, (0.30 : ℚ) * min investment 150000)
    ∧ (tax_benefits investment).1 ≤ 150000
    ∧ tax_benefits 200000 = (150000, 45000) := by
  refine ⟨?_, ?_, ?_⟩
  · simp only [tax_benefits]
    norm_num [mul_comm]
  · simp [tax_benefits]
  · norm_num [tax_benefits]

/-- Witness for C4 at investment = 200000. -/
theorem tax_benefits_spec_witness :
    tax_benefits 200000
      = (min 200000 150000, (0.30 : ℚ) * min 200000 150000)
    ∧ (tax_benefits 200000).1 ≤ 150000
    ∧ tax_benefits 200000 = (150000, 45000) :=
  tax_benefits_spec 200000 (by norm_num)

/-- Claim C5 counterexample: currentAge = 60 and retirementAge = 50 lie in the
declared input ranges [18,60] and [50,70], yet the horizon
`months 60 50 = -120` is negative, refuting `horizonMonths ≥ 0` over the full
declared ranges. -/
theorem months_negative_within_declared_ranges :
    ((18 : ℤ) ≤ 60 ∧ (60 : ℤ) ≤ 60 ∧ (50 : ℤ) ≤ 50 ∧ (50 : ℤ) ≤ 70)
    ∧ months 60 50 = -120 ∧ months 60 50 < 0 := by
  refine ⟨by norm_num, by norm_num [months], by norm_num [months]⟩

/-- Claim C5 (amended): the horizon `(retirement_age - age) * 12` is
nonnegative whenever the current age does not exceed the retirement age. -/
theorem months_nonneg_of_age_le (age retirement_age : ℤ)
    (h : age ≤ retirement_age) : 0 ≤ months age retirement_age := by
  unfold months
  have hsub : 0 ≤ retirement_age - age := sub_nonneg.mpr h
  have h12 : (0 : ℤ) ≤ 12 := by norm_num
  exact mul_nonneg hsub h12

/-- Witness for the amended C5 at the default ages 30 and 60. -/
theorem months_nonneg_of_age_le_witness : 0 ≤ months 30 60 :=
  months_nonneg_of_age_le 30 60 (by norm_num)

/-- Claim C9: the comparison table is a fixed constant with exactly 4 rows
whose option names are exactly the four fixed scheme names. -/
theorem df_comparison_fixed :
    df_comparison.length = 4
    ∧ df_comparison.map ComparisonRow.option
      = ["Equity Mutual Fund", "Public Provident Fund (PPF)",
         "Employees Provident Fund (EPF)", "National Pension Scheme (NPS)"] :=
  ⟨rfl, rfl⟩

/-- Folding `acc + f i` over `List.range n` starting from `c` adds the sum of
`f` over `0 .. n-1`. -/
lemma foldl_add_eq_sum (f : ℕ → ℚ) (n : ℕ) (c : ℚ) :
    (List.range n).foldl (fun acc i => acc + f i) c
      = c + ∑ i in Finset.range n, f i := by
  induction n with
  | zero => simp
  | succ n ih =>
    rw [List.range_succ, List.foldl_append, ih, Finset.sum_range_succ]
    simp [add_assoc]

/-- The loop of `sip_simulation` sums the monthly contribution compounded for
`1 .. months` whole periods (one full period for the final contribution):
an annuity-due. -/
lemma sip_simulation_snd_eq_sum (m rate : ℚ) (years : ℕ) :
    (sip_simulation m rate years).2
      = ∑ i in Finset.range (years * 12), m * (1 + rate / 12 / 100) ^ (i + 1) := by
  have hdef : (sip_simulation m rate years).2
      = (List.range (years * 12)).foldl
          (fun acc i =>
            acc + m * (1 + rate / 12 / 100) ^ (years * 12 - (i + 1) + 1)) 0 := rfl
  rw [hdef, foldl_add_eq_sum
    (fun i => m * (1 + rate / 12 / 100) ^ (years * 12 - (i + 1) + 1))
    (years * 12) 0, zero_add]
  rw [← Finset.sum_range_reflect
    (fun i => m * (1 + rate / 12 / 100) ^ (i + 1)) (years * 12)]
  refine Finset.sum_congr rfl fun i hi => ?_
  have hin : i < years * 12 := Finset.mem_range.mp hi
  have hexp : years * 12 - (i + 1) + 1 = years * 12 - 1 - i + 1 := by omega
  rw [hexp]

/-- `rate/100/12` (lines 44-45, 55-56) and `rate/12/100` (line 10) are the
same monthly rate. -/
lemma rate_div_order (rate : ℚ) : rate / 100 / 12 = rate / 12 / 100 := by
  ring

/-- A nonzero annual rate gives a nonzero monthly rate. -/
lemma monthly_rate_ne_zero (rate : ℚ) (hr : rate ≠ 0) : rate / 100 / 12 ≠ 0 := by
  rw [div_div]
  exact div_ne_zero hr (by norm_num)

/-- For a nonzero annual rate the closed-form path does not divide by zero and
returns the raw formula value. -/
lemma future_value_equity_eq_some (m rate : ℚ) (nMonths : ℕ) (hr : rate ≠ 0) :
    future_value_equity m rate nMonths
      = some (future_value_formula m rate nMonths) := by
  unfold future_value_equity
  rw [if_neg (monthly_rate_ne_zero rate hr)]

/-- Geometric-series evaluation of the loop: for nonzero annual rate the
iterative future value equals the annuity-due closed form. -/
lemma sip_simulation_snd_closed (m rate : ℚ) (years : ℕ) (hr : rate ≠ 0) :
    (sip_simulation m rate years).2
      = m * (1 + rate / 12 / 100) *
          (((1 + rate / 12 / 100) ^ (years * 12) - 1) / (rate / 12 / 100)) := by
  have hr' : rate / 12 / 100 ≠ 0 := by
    rw [div_div]
    exact div_ne_zero hr (by norm_num)
  have hx : (1 : ℚ) + rate / 12 / 100 ≠ 1 := by
    intro hcon
    apply hr'
    linarith
  rw [sip_simulation_snd_eq_sum, ← Finset.mul_sum]
  have h1 : ∑ i in Finset.range (years * 12), (1 + rate / 12 / 100) ^ (i + 1)
      = (1 + rate / 12 / 100) *
          ∑ i in Finset.range (years * 12), (1 + rate / 12 / 100) ^ i := by
    rw [Finset.mul_sum]
    refine Finset.sum_congr rfl fun i _ => ?_
    rw [pow_succ]
    ring
  rw [h1, geom_sum_eq hx]
  have h2 : (1 : ℚ) + rate / 12 / 100 - 1 = rate / 12 / 100 := by ring
  rw [h2]
  ring

/-- The iterative future value is exactly `(1 + monthlyRate)` times the
ordinary-annuity closed form of lines 44-45. -/
lemma sip_simulation_snd_eq_formula (m rate : ℚ) (years : ℕ) (hr : rate ≠ 0) :
    (sip_simulation m rate years).2
      = (1 + rate / 12 / 100) * future_value_formula m rate (12 * years) := by
  rw [sip_simulation_snd_closed m rate years hr]
  unfold future_value_formula
  rw [rate_div_order, Nat.mul_comm 12 years]
  ring

/-- Claim C1 counterexample: at monthlyContribution 1000, rate 12, years 1 the
iterative future value exceeds the closed form and the (positive) gap is far
larger than 1e-6 of either value, so the two paths do not agree within 1e-6
relative tolerance. -/
theorem sip_closed_form_tolerance_counterexample :
    future_value_formula 1000 12 12 < (sip_simulation 1000 12 1).2
    ∧ ¬ ((sip_simulation 1000 12 1).2 - future_value_formula 1000 12 12
          ≤ 1 / 1000000 * future_value_formula 1000 12 12)
    ∧ ¬ ((sip_simulation 1000 12 1).2 - future_value_formula 1000 12 12
          ≤ 1 / 1000000 * (sip_simulation 1000 12 1).2) := by
  have h := sip_simulation_snd_closed 1000 12 1 (by norm_num)
  refine ⟨?_, ?_, ?_⟩ <;> rw [h] <;> norm_num [future_value_formula]

/-- Claim C1 (amended): for positive inputs the iterative and closed-form
future values do not agree to 1e-6; instead the iterative value is exactly
`(1 + monthlyRate)` times the closed-form value, a relative gap of
`monthlyRate = annualRatePercent/1200`. -/
theorem sip_iterative_vs_closed_form (m rate : ℚ) (years : ℕ)
    (hm : 0 < m) (hr : 0 < rate) (hy : 0 < years) :
    future_value_equity m rate (12 * years)
      = some (future_value_formula m rate (12 * years))
    ∧ (sip_simulation m rate years).2
      = (1 + rate / 12 / 100) * future_value_formula m rate (12 * years) :=
  ⟨future_value_equity_eq_some m rate (12 * years) hr.ne',
   sip_simulation_snd_eq_formula m rate years hr.ne'⟩

/-- Witness for the amended C1 at m = 1000, rate = 12, years = 1. -/
theorem sip_iterative_vs_closed_form_witness :
    future_value_equity 1000 12 (12 * 1)
      = some (future_value_formula 1000 12 (12 * 1))
    ∧ (sip_simulation 1000 12 1).2
      = (1 + 12 / 12 / 100) * future_value_formula 1000 12 (12 * 1) :=
  sip_iterative_vs_closed_form 1000 12 1
    (by norm_num) (by norm_num) (by norm_num)

/-- Claim C2 counterexample: at rate 0 the closed-form path of lines 44-45
divides by zero (result `none`) rather than special-casing to the total
contributed; the iterative total at m = 5000 over 10 years is 600000 for
reference. -/
theorem closed_form_zero_rate_divides_by_zero :
    future_value_equity 5000 0 120 = none
    ∧ (sip_simulation 5000 0 10).1 = 600000 := by
  constructor
  · simp [future_value_equity]
  · norm_num [sip_simulation]

/-- Claim C2 (amended): at annual rate 0 the iterative computation returns
exactly the total contributed, while the closed-form path has no zero-rate
special case and fails with division by zero. -/
theorem zero_rate_future_value (m : ℚ) (years : ℕ) (hy : 0 < years) :
    (sip_simulation m 0 years).2 = (sip_simulation m 0 years).1
    ∧ future_value_equity m 0 (12 * years) = none := by
  constructor
  · rw [sip_simulation_snd_eq_sum]
    have h1 : (sip_simulation m 0 years).1 = m * 12 * (years : ℚ) := rfl
    rw [h1]
    simp only [zero_div, add_zero, one_pow, mul_one, Finset.sum_const,
      Finset.card_range, nsmul_eq_mul]
    push_cast
    ring
  · simp [future_value_equity]

/-- Witness for the amended C2 at m = 7, years = 3. -/
theorem zero_rate_future_value_witness :
    (sip_simulation 7 0 3).2 = (sip_simulation 7 0 3).1
    ∧ future_value_equity 7 0 (12 * 3) = none :=
  zero_rate_future_value 7 3 (by norm_num)

/-- Claim C6: for positive contribution, rate and years the future value is at
least the total contributed, for the iterative loop and for the closed form. -/
theorem future_value_ge_total_invested (m rate : ℚ) (years : ℕ)
    (hm : 0 < m) (hr : 0 < rate) (hy : 0 < years) :
    (sip_simulation m rate years).1 ≤ (sip_simulation m rate years).2
    ∧ future_value_equity m rate (12 * years)
        = some (future_value_formula m rate (12 * years))
    ∧ (sip_simulation m rate years).1 ≤ future_value_formula m rate (12 * years) := by
  have hrpos : (0 : ℚ) < rate / 12 / 100 := by positivity
  have h1 : (sip_simulation m rate years).1 = m * 12 * (years : ℚ) := rfl
  refine ⟨?_, future_value_equity_eq_some m rate (12 * years) hr.ne', ?_⟩
  · rw [sip_simulation_snd_eq_sum, h1]
    have heq : m * 12 * (years : ℚ) = ∑ i in Finset.range (years * 12), m := by
      rw [Finset.sum_const, Finset.card_range, nsmul_eq_mul]
      push_cast
      ring
    rw [heq]
    refine Finset.sum_le_sum fun i _ => ?_
    have hpow : (1 : ℚ) ≤ (1 + rate / 12 / 100) ^ (i + 1) := by
      calc (1 : ℚ) = 1 ^ (i + 1) := (one_pow _).symm
        _ ≤ (1 + rate / 12 / 100) ^ (i + 1) :=
            pow_le_pow_left₀ (by norm_num) (by linarith) _
    calc m = m * 1 := (mul_one m).symm
      _ ≤ m * (1 + rate / 12 / 100) ^ (i + 1) :=
          mul_le_mul_of_nonneg_left hpow hm.le
  · rw [h1]
    unfold future_value_formula
    rw [rate_div_order]
    have hbern := one_add_mul_le_pow
      (show (-2 : ℚ) ≤ rate / 12 / 100 by linarith) (12 * years)
    have hdiv : ((12 * years : ℕ) : ℚ)
        ≤ ((1 + rate / 12 / 100) ^ (12 * years) - 1) / (rate / 12 / 100) := by
      rw [le_div_iff₀ hrpos]
      linarith [hbern]
    calc m * 12 * (years : ℚ) = m * ((12 * years : ℕ) : ℚ) := by push_cast; ring
      _ ≤ m * (((1 + rate / 12 / 100) ^ (12 * years) - 1) / (rate / 12 / 100)) :=
          mul_le_mul_of_nonneg_left hdiv hm.le

/-- Witness for C6 at m = 500, rate = 6, years = 2. -/
theorem future_value_ge_total_invested_witness :
    (sip_simulation 500 6 2).1 ≤ (sip_simulation 500 6 2).2
    ∧ future_value_equity 500 6 (12 * 2)
        = some (future_value_formula 500 6 (12 * 2))
    ∧ (sip_simulation 500 6 2).1 ≤ future_value_formula 500 6 (12 * 2) :=
  future_value_ge_total_invested 500 6 2
    (by norm_num) (by norm_num) (by norm_num)

/-- Claim C7 counterexample: at monthlyContribution 5000, rate 12, years 20 the
total contributed is 1200000 as claimed, but the future value exceeds
4990000, hence is not approximately 4949800 within rounding (the gap is more
than 40000). -/
theorem sip_default_scenario_not_4949800 :
    (sip_simulation 5000 12 20).1 = 1200000
    ∧ 4990000 < (sip_simulation 5000 12 20).2 := by
  have h := sip_simulation_snd_closed 5000 12 20 (by norm_num)
  constructor
  · norm_num [sip_simulation]
  · rw [h]
    norm_num

/-- Claim C7 (amended): at monthlyContribution 5000, rate 12, years 20 the
total contributed is 1200000 and the future value is ≈ 4995740 (between
4995739 and 4995740), the annuity-due value, not 4949800. -/
theorem sip_default_scenario_value :
    (sip_simulation 5000 12 20).1 = 1200000
    ∧ 4995739 < (sip_simulation 5000 12 20).2
    ∧ (sip_simulation 5000 12 20).2 < 4995740 := by
  have h := sip_simulation_snd_closed 5000 12 20 (by norm_num)
  refine ⟨by norm_num [sip_simulation], ?_, ?_⟩ <;> rw [h] <;> norm_num

/-- Claim C10: for positive inputs the iterative sum equals the annuity-due
closed form `m * (1+r) * ((1+r)^n - 1) / r` with `r = rate/12/100` and
`n = 12*years`, i.e. exactly `(1+r)` times the ordinary-annuity closed form
of lines 44-45. -/
theorem sip_simulation_annuity_due (m rate : ℚ) (years : ℕ)
    (hm : 0 < m) (hr : 0 < rate) (hy : 0 < years) :
    (sip_simulation m rate years).2
      = m * (1 + rate / 12 / 100) *
          (((1 + rate / 12 / 100) ^ (12 * years) - 1) / (rate / 12 / 100))
    ∧ (sip_simulation m rate years).2
      = (1 + rate / 12 / 100) * future_value_formula m rate (12 * years) := by
  refine ⟨?_, sip_simulation_snd_eq_formula m rate years hr.ne'⟩
  rw [Nat.mul_comm 12 years]
  exact sip_simulation_snd_closed m rate years hr.ne'

/-- Witness for C10 at m = 2000, rate = 6, years = 1. -/
theorem sip_simulation_annuity_due_witness :
    (sip_simulation 2000 6 1).2
      = 2000 * (1 + 6 / 12 / 100) *
          (((1 + 6 / 12 / 100) ^ (12 * 1) - 1) / (6 / 12 / 100))
    ∧ (sip_simulation 2000 6 1).2
      = (1 + 6 / 12 / 100) * future_value_formula 2000 6 (12 * 1) :=
  sip_simulation_annuity_due 2000 6 1 (by norm_num) (by norm_num) (by norm_num)

/-- When the current age does not exceed the retirement age, the growth list
is the closed form mapped over elapsed-year indices `0 .. retirement - age`. -/
lemma growth_series_eq_map (m rate : ℚ) (age retirement_age : ℤ)
    (h : age ≤ retirement_age) :
    growth_series m rate age retirement_age
      = (List.range ((retirement_age - age).toNat + 1)).map
          (fun i => future_value_formula m rate (i * 12)) := by
  unfold growth_series
  have hn : (retirement_age + 1 - age).toNat = (retirement_age - age).toNat + 1 := by
    omega
  rw [hn]

/-- The last element of `f` mapped over `0 .. k`. -/
lemma range_map_getLast (f : ℕ → ℚ) (k : ℕ) :
    ((List.range (k + 1)).map f).getLast? = some (f k) := by
  simp [List.range_succ]

/-- Per-rate facts about the growth series: shape, length, last element, and
agreement of the last element with the headline closed form. -/
lemma growth_series_facts (m rate : ℚ) (age retirement_age : ℤ)
    (h : age ≤ retirement_age) (hr : rate ≠ 0) :
    growth_series m rate age retirement_age
      = (List.range ((retirement_age - age).toNat + 1)).map
          (fun i => future_value_formula m rate (i * 12))
    ∧ (growth_series m rate age retirement_age).length
        = (retirement_age - age).toNat + 1
    ∧ (growth_series m rate age retirement_age).getLast?
        = some (future_value_formula m rate ((retirement_age - age).toNat * 12))
    ∧ future_value_equity m rate ((retirement_age - age).toNat * 12)
        = some (future_value_formula m rate ((retirement_age - age).toNat * 12)) := by
  have hmap := growth_series_eq_map m rate age retirement_age h
  refine ⟨hmap, ?_, ?_, future_value_equity_eq_some m rate _ hr⟩
  · rw [hmap, List.length_map, List.length_range]
  · rw [hmap]
    exact range_map_getLast (fun i => future_value_formula m rate (i * 12)) _

/-- Claim C8: for ages with currentAge ≤ retirementAge and positive equity and
traditional rates, both growth lists are the closed-form future value at
elapsed months 0, 12, ..., (retirement − current)·12, have exactly
`retirement − current + 1` entries, and their last entries are the headline
closed-form future values. -/
theorem growth_series_spec (m er tr : ℚ) (age retirement_age : ℤ)
    (hAge : age ≤ retirement_age) (her : 0 < er) (htr : 0 < tr) :
    growth_series m er age retirement_age
      = (List.range ((retirement_age - age).toNat + 1)).map
          (fun i => future_value_formula m er (i * 12))
    ∧ growth_series m tr age retirement_age
      = (List.range ((retirement_age - age).toNat + 1)).map
          (fun i => future_value_formula m tr (i * 12))
    ∧ (growth_series m er age retirement_age).length
        = (retirement_age - age).toNat + 1
    ∧ (growth_series m tr age retirement_age).length
        = (retirement_age - age).toNat + 1
    ∧ (growth_series m er age retirement_age).getLast?
        = some (future_value_formula m er ((retirement_age - age).toNat * 12))
    ∧ future_value_equity m er ((retirement_age - age).toNat * 12)
        = some (future_value_formula m er ((retirement_age - age).toNat * 12))
    ∧ (growth_series m tr age retirement_age).getLast?
        = some (future_value_formula m tr ((retirement_age - age).toNat * 12))
    ∧ future_value_equity m tr ((retirement_age - age).toNat * 12)
        = some (future_value_formula m tr ((retirement_age - age).toNat * 12)) := by
  obtain ⟨h1, h2, h3, h4⟩ :=
    growth_series_facts m er age retirement_age hAge her.ne'
  obtain ⟨g1, g2, g3, g4⟩ :=
    growth_series_facts m tr age retirement_age hAge htr.ne'
  exact ⟨h1, g1, h2, g2, h3, h4, g3, g4⟩

/-- Witness for C8 at m = 5000, equity rate 12, traditional rate 7, ages 59
and 60. -/
theorem growth_series_spec_witness :
    (growth_series 5000 12 59 60).length = ((60 : ℤ) - 59).toNat + 1
    ∧ (growth_series 5000 7 59 60).length = ((60 : ℤ) - 59).toNat + 1
    ∧ (growth_series 5000 12 59 60).getLast?
        = some (future_value_formula 5000 12 (((60 : ℤ) - 59).toNat * 12))
    ∧ future_value_equity 5000 12 (((60 : ℤ) - 59).toNat * 12)
        = some (future_value_formula 5000 12 (((60 : ℤ) - 59).toNat * 12)) := by
  have h := growth_series_spec 5000 12 7 59 60
    (by norm_num) (by norm_num) (by norm_num)
  exact ⟨h.2.2.1, h.2.2.2.1, h.2.2.2.2.1, h.2.2.2.2.2.1⟩
